import Mathlib

/-!
Shallow embedding of `scripts/compare-benchmarks.py`: a tool that compares
two benchmark result documents, classifies each benchmark as
new/removed/regression/improvement/unchanged against a percentage threshold,
renders a markdown report and derives a process exit code.

Numeric values (`mean_ns`, thresholds, percentages) are embedded as exact
rationals `ℚ`; the Python source computes with floats but the specification
speaks of real numbers, and every concrete value used in the theorems below
is exactly representable.
-/

namespace CompareBench

/-- One benchmark entry of a run document.  `mean_ns` is optional because the
Python code reads it with `b.get('mean_ns', 0)`, defaulting to 0. -/
structure Benchmark where
  name : String
  mean_ns : Option ℚ
deriving DecidableEq, Repr

/-- A parsed run document: free-form `version` / `timestamp` metadata (used only
for display, absent keys fall back to "unknown") and a list of benchmarks. -/
structure RunDoc where
  version : Option String
  timestamp : Option String
  benchmarks : List Benchmark
deriving DecidableEq, Repr

/-- Classification of one comparison record (the `status` string of the code). -/
inductive Status where
  | new
  | removed
  | regression
  | improvement
  | unchanged
deriving DecidableEq, Repr

/-- One comparison record, as built by `compare_benchmarks` in the code:
a dict with keys `name`, `status`, `baseline`, `current`, `change_percent`. -/
structure Comparison where
  name : String
  status : Status
  baseline : Option Benchmark
  current : Option Benchmark
  change_percent : ℚ
deriving DecidableEq, Repr

/-- `base.get('mean_ns', 0)`: the mean with the code's default of 0. -/
def meanOf (b : Benchmark) : ℚ := b.mean_ns.getD 0

/-- `calculate_change` of the code: percentage change, with the
division-by-zero guard returning 0 when the baseline is 0. -/
def calculate_change (baseline current : ℚ) : ℚ :=
  if baseline = 0 then 0 else ((current - baseline) / baseline) * 100

/-- The name → benchmark lookup built by
`\x7bb['name']: b for b in doc.get('benchmarks', [])\x7d.get(name)`:
on duplicate names the last entry wins, absent names give `none`. -/
def benchLookup (l : List Benchmark) (n : String) : Option Benchmark :=
  l.reverse.find? (fun b => decide (b.name = n))

/-- The names occurring in a benchmark list (with duplicates). -/
def benchNames (l : List Benchmark) : List String :=
  l.map (fun b => b.name)

/-- `sorted(set(baseline_benchmarks.keys()) | set(current_benchmarks.keys()))`:
the union of the two name sets, deduplicated, in ascending lexicographic
order. -/
def allNames (baseline current : RunDoc) : List String :=
  List.insertionSort (fun a b => a ≤ b)
    ((benchNames baseline.benchmarks ++ benchNames current.benchmarks).dedup)

/-- The loop body of `compare_benchmarks` for one name: given the two lookups,
build the comparison record exactly as the code does. -/
def compareOne (threshold : ℚ) (n : String) (base curr : Option Benchmark) :
    Comparison :=
  match base, curr with
  | none, _ =>
      { name := n, status := .new, baseline := none, current := curr,
        change_percent := 0 }
  | some b, none =>
      { name := n, status := .removed, baseline := some b, current := none,
        change_percent := 0 }
  | some b, some c =>
      let change := calculate_change (meanOf b) (meanOf c)
      { name := n,
        status :=
          if change > threshold then .regression
          else if change < -threshold then .improvement
          else .unchanged,
        baseline := some b, current := some c, change_percent := change }

/-- `compare_benchmarks(baseline, current, threshold)`: one record per name in
the sorted union of the two name sets. -/
def compare_benchmarks (baseline current : RunDoc) (threshold : ℚ) :
    List Comparison :=
  (allNames baseline current).map (fun n =>
    compareOne threshold n (benchLookup baseline.benchmarks n)
      (benchLookup current.benchmarks n))

/-! ### Number formatting

Python renders percentages and durations with `f"..:.1f"` / `f"..:.2f"` /
`f"..:.0f"`.  On the exact rationals of this embedding that is: round to the
given number of decimals (ties to even) and print with exactly that many
fractional digits. -/

/-- Round a rational to the nearest integer, ties to even. -/
def roundHalfEven (q : ℚ) : ℤ :=
  let f := ⌊q⌋
  let frac := q - f
  if frac < 1/2 then f
  else if 1/2 < frac then f + 1
  else if f % 2 = 0 then f else f + 1

/-- Left-pad a digit string with zeros to the given width. -/
def padZeros (s : String) (n : Nat) : String :=
  String.mk (List.replicate (n - s.length) '0') ++ s

/-- `f"{q:.prec f}"`: fixed-point rendering with `prec` fractional digits
(none, and no decimal point, when `prec = 0`). -/
def formatFixed (prec : Nat) (q : ℚ) : String :=
  let m := (roundHalfEven (|q| * (10 ^ prec : ℚ))).toNat
  let ip := m / 10 ^ prec
  let fp := m % 10 ^ prec
  (if q < 0 then "-" else "") ++ toString ip ++
    (if prec = 0 then "" else "." ++ padZeros (toString fp) prec)

/-- `f"{q:+.prec f}"`: like `formatFixed` but with an explicit `+` on
non-negative values. -/
def formatFixedSigned (prec : Nat) (q : ℚ) : String :=
  if q < 0 then formatFixed prec q else "+" ++ formatFixed prec q

/-- `format_duration` of the code: pick the largest unit tier. -/
def format_duration (ns : ℚ) : String :=
  if 1000000000 ≤ ns then formatFixed 2 (ns / 1000000000) ++ "s"
  else if 1000000 ≤ ns then formatFixed 2 (ns / 1000000) ++ "ms"
  else if 1000 ≤ ns then formatFixed 2 (ns / 1000) ++ "Âµs"
  else formatFixed 0 ns ++ "ns"

/-- `format_throughput` of the code (provided but unused by the report). -/
def format_throughput (ops : ℚ) : String :=
  if 1000000000 ≤ ops then formatFixed 2 (ops / 1000000000) ++ "G ops/s"
  else if 1000000 ≤ ops then formatFixed 2 (ops / 1000000) ++ "M ops/s"
  else if 1000 ≤ ops then formatFixed 2 (ops / 1000) ++ "K ops/s"
  else formatFixed 0 ops ++ " ops/s"

/-! ### Reporter (`generate_markdown`) -/

/-- `c['…'].get('mean_ns', 0)` applied to an optional reference.  The report
code only ever dereferences a reference that is present (the Python code would
raise `AttributeError` on `None`); the `none` arm's value 0 is never reached
on comparator output — see the reference invariant proved below. -/
def optMean (o : Option Benchmark) : ℚ :=
  match o with
  | some b => meanOf b
  | none => 0

/-- The regressions-count summary line (emitted only when the count is
positive). -/
def regrCountLine (n : Nat) : String := s!"ğŸ”´ **{n} regressions detected**"

/-- The improvements-count summary line (emitted only when positive). -/
def imprCountLine (n : Nat) : String := s!"ğŸŸ¢ **{n} improvements**"

/-- The unchanged-count summary line (always emitted). -/
def unchCountLine (n : Nat) : String := s!"âšª {n} unchanged"

/-- The new-benchmarks-count summary line (emitted only when positive). -/
def newCountLine (n : Nat) : String := s!"ğŸ†• {n} new benchmarks"

/-- The detail table header row. -/
def tableHeaderLine : String := "| Benchmark | Baseline | Current | Change |"

/-- The detail table separator row. -/
def tableSepLine : String := "|-----------|----------|---------|--------|"

/-- A metadata footer line: `- <label>: <version> @ <timestamp>`, with
"unknown" fallbacks. -/
def metaLine (label : String) (doc : RunDoc) : String :=
  let v := doc.version.getD "unknown"
  let ts := doc.timestamp.getD "unknown"
  s!"- {label}: {v} @ {ts}"

/-- One detail table row, the body of the report loop. -/
def rowLine (c : Comparison) : String :=
  let nm := c.name
  if c.status = .new then
    let currStr := format_duration (optMean c.current)
    s!"| {nm} | - | {currStr} | ğŸ†• NEW |"
  else if c.status = .removed then
    let baseStr := format_duration (optMean c.baseline)
    s!"| {nm} | {baseStr} | - | âŒ REMOVED |"
  else
    let baseStr := format_duration (optMean c.baseline)
    let currStr := format_duration (optMean c.current)
    let change := c.change_percent
    let icon : String :=
      if c.status = .regression then "ğŸ”´ REGRESSION"
      else if c.status = .improvement then "ğŸŸ¢"
      else ""
    let changeStr : String :=
      if c.status = .regression then "+" ++ formatFixed 1 change ++ "%"
      else if c.status = .improvement then formatFixed 1 change ++ "%"
      else formatFixedSigned 1 change ++ "%"
    s!"| {nm} | {baseStr} | {currStr} | {changeStr} {icon} |"

/-- The list of report lines built by `generate_markdown` (joined with
newlines at the end). -/
def generateLines (comparisons : List Comparison)
    (baseline_info current_info : RunDoc) : List String :=
  let regressions := comparisons.filter (fun c => decide (c.status = .regression))
  let improvements := comparisons.filter (fun c => decide (c.status = .improvement))
  let unchanged := comparisons.filter (fun c => decide (c.status = .unchanged))
  let new_benchmarks := comparisons.filter (fun c => decide (c.status = .new))
  ["### Summary", ""]
    ++ (if regressions.isEmpty then [] else [regrCountLine regressions.length])
    ++ (if improvements.isEmpty then [] else [imprCountLine improvements.length])
    ++ [unchCountLine unchanged.length]
    ++ (if new_benchmarks.isEmpty then [] else [newCountLine new_benchmarks.length])
    ++ [""]
    ++ ["### Details", "", tableHeaderLine, tableSepLine]
    ++ comparisons.map rowLine
    ++ [""]
    ++ ["<details>", "<summary>Run Information</summary>", "",
        metaLine "Baseline" baseline_info, metaLine "Current" current_info,
        "", "</details>"]

/-- `generate_markdown`: the report text. -/
def generate_markdown (comparisons : List Comparison)
    (baseline_info current_info : RunDoc) : String :=
  String.intercalate "\n" (generateLines comparisons baseline_info current_info)

/-! ### End of `main`: regression check and exit code -/

/-- `[c for c in comparisons if c['status'] == 'regression']`. -/
def regressionsOf (comparisons : List Comparison) : List Comparison :=
  comparisons.filter (fun c => decide (c.status = .regression))

/-- The per-regression console line printed before a failing exit. -/
def regressionLine (r : Comparison) : String :=
  let nm := r.name
  let pct := formatFixed 1 r.change_percent
  s!"  - {nm}: +{pct}%"

/-- The tail of `main` after the report is written: returns the process exit
code and the per-regression lines printed when the failure path is taken.
Python: `if regressions and args.fail_on_regression: …; sys.exit(1)`,
otherwise the process falls through and exits 0. -/
def mainEpilogue (comparisons : List Comparison) (failOnRegression : Bool) :
    Nat × List String :=
  if !(regressionsOf comparisons).isEmpty && failOnRegression then
    (1, (regressionsOf comparisons).map regressionLine)
  else
    (0, [])

/-- The full pure transform of one invocation after loading: compare then
render. -/
def runReport (baseline current : RunDoc) (threshold : ℚ) : String :=
  generate_markdown (compare_benchmarks baseline current threshold)
    baseline current

/-! ### Loader layer (`load_results` and the benchmark-dict comprehension)

The loader claim is about dynamically-typed input, so it is modelled one
level below the typed `RunDoc`: a JSON value tree and the Python runtime
errors the relevant operations can raise. -/

/-- A parsed JSON value. -/
inductive Json where
  | null : Json
  | bool (b : Bool) : Json
  | num (q : ℚ) : Json
  | str (s : String) : Json
  | arr (elems : List Json) : Json
  | obj (fields : List (String × Json)) : Json

/-- The Python runtime errors reachable in the benchmark-dict construction. -/
inductive PyError where
  | typeError
  | keyError
  | attributeError
deriving DecidableEq, Repr

/-- The two failure kinds of `load_results`. -/
inductive LoadError where
  | ioError
  | parseError
deriving DecidableEq, Repr

/-- `load_results` at the IO/parse boundary: `open(path)` raises an IO-kind
error (`FileNotFoundError`/`OSError`) when the file is missing or unreadable,
then `json.load` raises `JSONDecodeError` when the content is not well-formed
JSON.  The file is abstracted to `none` (missing/unreadable),
`some none` (present but not parseable) or `some (some j)` (parses to `j`). -/
def load_results (file : Option (Option Json)) : Except LoadError Json :=
  match file with
  | none => .error .ioError
  | some none => .error .parseError
  | some (some j) => .ok j

/-- Last-wins lookup of a key in a JSON object's field list (Python dicts
keep the last duplicate from `json.load`). -/
def lookupField (fields : List (String × Json)) (key : String) : Option Json :=
  (fields.reverse.find? (fun kv => decide (kv.1 = key))).map (fun kv => kv.2)

/-- Python iteration `for b in x` over a JSON value: lists yield elements,
strings yield their one-character substrings, dicts yield their keys, and
every other value raises `TypeError: … is not iterable`. -/
def pyIter : Json → Except PyError (List Json)
  | .arr l => .ok l
  | .str s => .ok (s.data.map (fun c => .str (String.mk [c])))
  | .obj fields => .ok (fields.map (fun kv => .str kv.1))
  | _ => .error .typeError

/-- `b['name']` in Python: dict lookup (raising `KeyError` when absent);
subscripting a string or list with a string key, or a non-subscriptable
value, raises `TypeError`. -/
def pyIndexName (b : Json) : Except PyError Json :=
  match b with
  | .obj fields =>
      match lookupField fields "name" with
      | some v => .ok v
      | none => .error .keyError
  | _ => .error .typeError

/-- Whether a JSON value is hashable in Python (usable as a dict key). -/
def isHashable : Json → Bool
  | .arr _ => false
  | .obj _ => false
  | _ => true

/-- The dict comprehension
`\x7bb['name']: b for b in doc.get('benchmarks', [])\x7d` of
`compare_benchmarks`, for one run document: a missing `benchmarks` key
defaults to the empty list; the field's value is then iterated and each
element is indexed by `'name'`.  Any of those steps can raise. -/
def buildBenchDict (doc : Json) : Except PyError (List (Json × Json)) :=
  match doc with
  | .obj fields =>
      let field := (lookupField fields "benchmarks").getD (.arr [])
      match pyIter field with
      | .error e => .error e
      | .ok elems =>
          elems.foldlM (fun acc b =>
            match pyIndexName b with
            | .error e => .error e
            | .ok nm =>
                if isHashable nm then .ok (acc ++ [(nm, b)])
                else .error .typeError) []
  | _ => .error .attributeError

/-! ### Helper lemmas -/

theorem compareOne_name (t : ℚ) (n : String) (b c : Option Benchmark) :
    (compareOne t n b c).name = n := by
  cases b <;> cases c <;> rfl

theorem benchLookup_isSome {l : List Benchmark} {n : String} :
    (benchLookup l n).isSome = true ↔ n ∈ benchNames l := by
  unfold benchLookup benchNames
  rw [List.find?_isSome]
  constructor
  · rintro ⟨b, hb, hp⟩
    rw [List.mem_reverse] at hb
    have hbn : b.name = n := of_decide_eq_true hp
    exact hbn ▸ List.mem_map_of_mem _ hb
  · intro hmem
    rw [List.mem_map] at hmem
    obtain ⟨b, hb, hbn⟩ := hmem
    exact ⟨b, List.mem_reverse.2 hb, decide_eq_true hbn⟩

theorem benchLookup_eq_some {l : List Benchmark} {n : String} {b : Benchmark}
    (h : benchLookup l n = some b) : b.name = n ∧ b ∈ l := by
  unfold benchLookup at h
  have h1 := List.find?_some h
  have h2 := List.mem_of_find?_eq_some h
  exact ⟨of_decide_eq_true h1, List.mem_reverse.1 h2⟩

theorem mem_allNames {bl cur : RunDoc} {n : String} :
    n ∈ allNames bl cur ↔
      n ∈ benchNames bl.benchmarks ∨ n ∈ benchNames cur.benchmarks := by
  unfold allNames
  rw [(List.perm_insertionSort _ _).mem_iff, List.mem_dedup, List.mem_append]

theorem allNames_sorted (bl cur : RunDoc) :
    (allNames bl cur).Sorted (· < ·) := by
  have h1 : (allNames bl cur).Sorted (· ≤ ·) := List.sorted_insertionSort _ _
  have h2 : (allNames bl cur).Nodup :=
    (List.perm_insertionSort _ _).nodup_iff.2 (List.nodup_dedup _)
  exact h1.lt_of_le h2

theorem allNames_nodup (bl cur : RunDoc) : (allNames bl cur).Nodup :=
  (List.perm_insertionSort _ _).nodup_iff.2 (List.nodup_dedup _)

theorem compare_map_name (bl cur : RunDoc) (t : ℚ) :
    (compare_benchmarks bl cur t).map (fun r => r.name) = allNames bl cur := by
  unfold compare_benchmarks
  rw [List.map_map]
  have h : ((fun r => r.name) ∘ fun n =>
      compareOne t n (benchLookup bl.benchmarks n)
        (benchLookup cur.benchmarks n)) = fun n => n := by
    funext n
    simp [Function.comp, compareOne_name]
  rw [h, List.map_id']

theorem mem_compare_benchmarks {bl cur : RunDoc} {t : ℚ} {rec : Comparison} :
    rec ∈ compare_benchmarks bl cur t ↔
      ∃ n, n ∈ allNames bl cur ∧
        rec = compareOne t n (benchLookup bl.benchmarks n)
          (benchLookup cur.benchmarks n) := by
  unfold compare_benchmarks
  rw [List.mem_map]
  constructor
  · rintro ⟨n, hn, hrec⟩
    exact ⟨n, hn, hrec.symm⟩
  · rintro ⟨n, hn, hrec⟩
    exact ⟨n, hn, hrec.symm⟩

/-- A name present in one of the two documents has a present lookup there. -/
theorem benchLookup_isSome_of_mem {l : List Benchmark} {n : String}
    (h : n ∈ benchNames l) : ∃ b, benchLookup l n = some b := by
  have := benchLookup_isSome.2 h
  exact Option.isSome_iff_exists.1 this

/-- The strict `>` / `<` classification chain, characterised for a
non-negative threshold (for a negative threshold the two conditions are not
mutually exclusive and the chain picks `regression` first). -/
theorem classify_spec (chg : ℚ) {t : ℚ} (ht : 0 ≤ t) (s : Status)
    (hs : s = if chg > t then Status.regression
      else if chg < -t then Status.improvement else Status.unchanged) :
    (s = .regression ↔ t < chg) ∧
    (s = .improvement ↔ chg < -t) ∧
    (s = .unchanged ↔ ¬t < chg ∧ ¬chg < -t) := by
  subst hs
  by_cases h1 : chg > t
  · rw [if_pos h1]
    have h2 : ¬chg < -t := by intro h; linarith
    exact ⟨⟨fun _ => h1, fun _ => rfl⟩,
      ⟨fun h => Status.noConfusion h, fun h => absurd h h2⟩,
      ⟨fun h => Status.noConfusion h, fun hc => absurd h1 hc.1⟩⟩
  · rw [if_neg h1]
    by_cases h2 : chg < -t
    · rw [if_pos h2]
      exact ⟨⟨fun h => Status.noConfusion h, fun h => absurd h h1⟩,
        ⟨fun _ => h2, fun _ => rfl⟩,
        ⟨fun h => Status.noConfusion h, fun hc => absurd h2 hc.2⟩⟩
    · rw [if_neg h2]
      exact ⟨⟨fun h => Status.noConfusion h, fun h => absurd h h1⟩,
        ⟨fun h => Status.noConfusion h, fun h => absurd h h2⟩,
        ⟨fun _ => ⟨h1, h2⟩, fun _ => rfl⟩⟩

theorem calculate_change_of_ne_zero {baseline : ℚ} (current : ℚ)
    (h : baseline ≠ 0) :
    calculate_change baseline current = ((current - baseline) / baseline) * 100 :=
  if_neg h

theorem calculate_change_of_zero {baseline : ℚ} (current : ℚ)
    (h : baseline = 0) : calculate_change baseline current = 0 :=
  if_pos h

/-! ### Claim theorems -/

/-- C2: for every baseline/current pair the comparator returns exactly one
record per name in the union of the two documents' benchmark-name sets
(last-wins deduplication cannot change a name set), no other records, in
strictly ascending lexicographic order of name. -/
theorem comparator_output_names (bl cur : RunDoc) (t : ℚ) :
    ((compare_benchmarks bl cur t).map (fun r => r.name)).Sorted (· < ·) ∧
    ((compare_benchmarks bl cur t).map (fun r => r.name)).Nodup ∧
    ∀ n : String,
      n ∈ (compare_benchmarks bl cur t).map (fun r => r.name) ↔
        n ∈ benchNames bl.benchmarks ∨ n ∈ benchNames cur.benchmarks := by
  rw [compare_map_name]
  exact ⟨allNames_sorted bl cur, allNames_nodup bl cur, fun n => mem_allNames⟩

/-- C1 (amended): for every name present in both runs with nonzero baseline
mean and every NON-NEGATIVE threshold, the comparator computes
`change_percent = ((current - baseline) / baseline) * 100` and classifies
strictly: regression iff `change > threshold`, improvement iff
`change < -threshold`, unchanged otherwise; a change exactly at the threshold
or its negation is unchanged.  (For a negative threshold the code classifies
a boundary change as regression/improvement — see the counterexample.) -/
theorem both_present_classification (bl cur : RunDoc) (t : ℚ) (n : String)
    (b c : Benchmark)
    (hb : benchLookup bl.benchmarks n = some b)
    (hc : benchLookup cur.benchmarks n = some c)
    (hnz : meanOf b ≠ 0) (ht : 0 ≤ t) :
    (∃ rec ∈ compare_benchmarks bl cur t, rec.name = n) ∧
    ∀ rec ∈ compare_benchmarks bl cur t, rec.name = n →
      rec.change_percent = ((meanOf c - meanOf b) / meanOf b) * 100 ∧
      (rec.status = .regression ↔ t < rec.change_percent) ∧
      (rec.status = .improvement ↔ rec.change_percent < -t) ∧
      (rec.status = .unchanged ↔
        ¬t < rec.change_percent ∧ ¬rec.change_percent < -t) ∧
      ((rec.change_percent = t ∨ rec.change_percent = -t) →
        rec.status = .unchanged) := by
  have hbmem : n ∈ benchNames bl.benchmarks :=
    benchLookup_isSome.1 (by rw [hb]; rfl)
  have hnmem : n ∈ allNames bl cur := mem_allNames.2 (Or.inl hbmem)
  constructor
  · exact ⟨compareOne t n (benchLookup bl.benchmarks n)
        (benchLookup cur.benchmarks n),
      mem_compare_benchmarks.2 ⟨n, hnmem, rfl⟩, compareOne_name t n _ _⟩
  · intro rec hrec hname
    obtain ⟨n', hn', heq⟩ := mem_compare_benchmarks.1 hrec
    have hn'n : n' = n := by rw [heq, compareOne_name] at hname; exact hname
    subst hn'n
    rw [hb, hc] at heq
    subst heq
    simp only [compareOne]
    have hval : calculate_change (meanOf b) (meanOf c) =
        ((meanOf c - meanOf b) / meanOf b) * 100 :=
      calculate_change_of_ne_zero _ hnz
    obtain ⟨hre, him, hun⟩ := classify_spec (calculate_change (meanOf b) (meanOf c)) ht _ rfl
    refine ⟨hval, hre, him, hun, ?_⟩
    rintro (h | h) <;>
      refine hun.2 ⟨?_, ?_⟩ <;> rw [h] <;> intro hx <;> linarith

/-- A baseline document with one benchmark `a` of mean 100 ns. -/
def blX : RunDoc := ⟨none, none, [⟨"a", some 100⟩]⟩

/-- A current document with one benchmark `a` of mean 100 ns. -/
def curX : RunDoc := ⟨none, none, [⟨"a", some 100⟩]⟩

/-- C1 counterexample: with threshold −5 the single record for `a` has
`change_percent = 0`, which is strictly below `-threshold = 5`, yet its
status is `regression`, not `improvement` (and not `unchanged` although the
change is within the threshold boundaries), because the code tests
`change > threshold` first and the two strict conditions overlap for a
negative threshold. -/
theorem both_present_classification_counterexample :
    (compare_benchmarks blX curX (-5)).map (fun r => r.change_percent) = [0] ∧
    (compare_benchmarks blX curX (-5)).map (fun r => r.status) = [.regression] ∧
    (0 : ℚ) < -(-5 : ℚ) := by
  refine ⟨?_, ?_, by norm_num⟩ <;>
    norm_num [compare_benchmarks, allNames, benchNames, benchLookup, compareOne,
      calculate_change, meanOf, blX, curX, List.insertionSort, List.orderedInsert,
      List.dedup, List.pwFilter]

/-- The baseline benchmark of the C1 witness run. -/
def bW : Benchmark := ⟨"bench", some 1000000⟩

/-- The current benchmark of the C1 witness run. -/
def cW : Benchmark := ⟨"bench", some 1150000⟩

/-- Baseline document of the C1 witness. -/
def blW : RunDoc := ⟨none, none, [bW]⟩

/-- Current document of the C1 witness. -/
def curW : RunDoc := ⟨none, none, [cW]⟩

/-- C1 witness: the amended claim theorem applied at a concrete pair of
documents (means 1 ms vs 1.15 ms, threshold 10). -/
theorem both_present_classification_witness :
    (∃ rec ∈ compare_benchmarks blW curW 10, rec.name = "bench") ∧
    ∀ rec ∈ compare_benchmarks blW curW 10, rec.name = "bench" →
      rec.change_percent = ((meanOf cW - meanOf bW) / meanOf bW) * 100 ∧
      (rec.status = .regression ↔ 10 < rec.change_percent) ∧
      (rec.status = .improvement ↔ rec.change_percent < -10) ∧
      (rec.status = .unchanged ↔
        ¬(10 : ℚ) < rec.change_percent ∧ ¬rec.change_percent < -10) ∧
      ((rec.change_percent = 10 ∨ rec.change_percent = -10) →
        rec.status = .unchanged) :=
  both_present_classification blW curW 10 "bench" bW cW rfl rfl
    (by norm_num [meanOf, bW]) (by norm_num)

/-- C3 (amended): for every name present in both runs whose baseline mean is
0 (including an absent `mean_ns`, which defaults to 0) and every
NON-NEGATIVE threshold, the record's change is 0 and its status `unchanged`
regardless of the current mean; no division by zero occurs.  (For a negative
threshold the code classifies the zero change as a regression — see the
counterexample.) -/
theorem zero_baseline_guard (bl cur : RunDoc) (t : ℚ) (n : String)
    (b c : Benchmark)
    (hb : benchLookup bl.benchmarks n = some b)
    (hc : benchLookup cur.benchmarks n = some c)
    (hz : meanOf b = 0) (ht : 0 ≤ t) :
    (∃ rec ∈ compare_benchmarks bl cur t, rec.name = n) ∧
    ∀ rec ∈ compare_benchmarks bl cur t, rec.name = n →
      rec.change_percent = 0 ∧ rec.status = .unchanged := by
  have hbmem : n ∈ benchNames bl.benchmarks :=
    benchLookup_isSome.1 (by rw [hb]; rfl)
  have hnmem : n ∈ allNames bl cur := mem_allNames.2 (Or.inl hbmem)
  constructor
  · exact ⟨compareOne t n (benchLookup bl.benchmarks n)
        (benchLookup cur.benchmarks n),
      mem_compare_benchmarks.2 ⟨n, hnmem, rfl⟩, compareOne_name t n _ _⟩
  · intro rec hrec hname
    obtain ⟨n', hn', heq⟩ := mem_compare_benchmarks.1 hrec
    have hn'n : n' = n := by rw [heq, compareOne_name] at hname; exact hname
    subst hn'n
    rw [hb, hc] at heq
    subst heq
    simp only [compareOne]
    have hval : calculate_change (meanOf b) (meanOf c) = 0 :=
      calculate_change_of_zero _ hz
    obtain ⟨hre, him, hun⟩ :=
      classify_spec (calculate_change (meanOf b) (meanOf c)) ht _ rfl
    refine ⟨hval, ?_⟩
    refine hun.2 ⟨?_, ?_⟩ <;> rw [hval] <;> intro hx <;> linarith

/-- Baseline document of the C3 counterexample: benchmark `a` has no
`mean_ns` key, so its mean defaults to 0. -/
def blZ : RunDoc := ⟨none, none, [⟨"a", none⟩]⟩

/-- Current document of the C3 counterexample. -/
def curZ : RunDoc := ⟨none, none, [⟨"a", some 5⟩]⟩

/-- C3 counterexample: with a zero baseline mean the change is indeed 0, but
with threshold −1 the status is `regression`, not `unchanged` as the claim
states for every threshold. -/
theorem zero_baseline_guard_counterexample :
    (compare_benchmarks blZ curZ (-1)).map (fun r => r.change_percent) = [0] ∧
    (compare_benchmarks blZ curZ (-1)).map (fun r => r.status) = [.regression] := by
  constructor <;>
    norm_num [compare_benchmarks, allNames, benchNames, benchLookup, compareOne,
      calculate_change, meanOf, blZ, curZ, List.insertionSort, List.orderedInsert,
      List.dedup, List.pwFilter]

/-- C3 witness: the amended claim applied to the zero-baseline documents with
the default threshold 10. -/
theorem zero_baseline_guard_witness :
    (∃ rec ∈ compare_benchmarks blZ curZ 10, rec.name = "a") ∧
    ∀ rec ∈ compare_benchmarks blZ curZ 10, rec.name = "a" →
      rec.change_percent = 0 ∧ rec.status = .unchanged :=
  zero_baseline_guard blZ curZ 10 "a" ⟨"a", none⟩ ⟨"a", some 5⟩ rfl rfl
    (by norm_num [meanOf]) (by norm_num)

/-- C4: a name present only in the current run yields a record with status
`new`, change 0 and an absent baseline reference; a name present only in the
baseline yields status `removed`, change 0 and an absent current reference —
for every threshold. -/
theorem only_one_side_records (bl cur : RunDoc) (t : ℚ) :
    (∀ n c, benchLookup bl.benchmarks n = none →
      benchLookup cur.benchmarks n = some c →
      (∃ rec ∈ compare_benchmarks bl cur t, rec.name = n) ∧
      ∀ rec ∈ compare_benchmarks bl cur t, rec.name = n →
        rec.status = .new ∧ rec.change_percent = 0 ∧ rec.baseline = none) ∧
    (∀ n b, benchLookup bl.benchmarks n = some b →
      benchLookup cur.benchmarks n = none →
      (∃ rec ∈ compare_benchmarks bl cur t, rec.name = n) ∧
      ∀ rec ∈ compare_benchmarks bl cur t, rec.name = n →
        rec.status = .removed ∧ rec.change_percent = 0 ∧ rec.current = none) := by
  constructor
  · intro n c hb hc
    have hcmem : n ∈ benchNames cur.benchmarks :=
      benchLookup_isSome.1 (by rw [hc]; rfl)
    have hnmem : n ∈ allNames bl cur := mem_allNames.2 (Or.inr hcmem)
    constructor
    · exact ⟨compareOne t n (benchLookup bl.benchmarks n)
          (benchLookup cur.benchmarks n),
        mem_compare_benchmarks.2 ⟨n, hnmem, rfl⟩, compareOne_name t n _ _⟩
    · intro rec hrec hname
      obtain ⟨n', hn', heq⟩ := mem_compare_benchmarks.1 hrec
      have hn'n : n' = n := by rw [heq, compareOne_name] at hname; exact hname
      subst hn'n
      rw [hb, hc] at heq
      subst heq
      exact ⟨rfl, rfl, rfl⟩
  · intro n b hb hc
    have hbmem : n ∈ benchNames bl.benchmarks :=
      benchLookup_isSome.1 (by rw [hb]; rfl)
    have hnmem : n ∈ allNames bl cur := mem_allNames.2 (Or.inl hbmem)
    constructor
    · exact ⟨compareOne t n (benchLookup bl.benchmarks n)
          (benchLookup cur.benchmarks n),
        mem_compare_benchmarks.2 ⟨n, hnmem, rfl⟩, compareOne_name t n _ _⟩
    · intro rec hrec hname
      obtain ⟨n', hn', heq⟩ := mem_compare_benchmarks.1 hrec
      have hn'n : n' = n := by rw [heq, compareOne_name] at hname; exact hname
      subst hn'n
      rw [hb, hc] at heq
      subst heq
      exact ⟨rfl, rfl, rfl⟩

/-- Baseline document of the C4 witness: only `old` is present. -/
def blN : RunDoc := ⟨none, none, [⟨"old", some 50⟩]⟩

/-- Current document of the C4 witness: only `fresh` is present. -/
def curN : RunDoc := ⟨none, none, [⟨"fresh", some 70⟩]⟩

/-- C4 witness: the claim theorem applied to documents with one name on each
side only. -/
theorem only_one_side_records_witness :
    ((∃ rec ∈ compare_benchmarks blN curN 10, rec.name = "fresh") ∧
      ∀ rec ∈ compare_benchmarks blN curN 10, rec.name = "fresh" →
        rec.status = .new ∧ rec.change_percent = 0 ∧ rec.baseline = none) ∧
    ((∃ rec ∈ compare_benchmarks blN curN 10, rec.name = "old") ∧
      ∀ rec ∈ compare_benchmarks blN curN 10, rec.name = "old" →
        rec.status = .removed ∧ rec.change_percent = 0 ∧ rec.current = none) :=
  ⟨(only_one_side_records blN curN 10).1 "fresh" ⟨"fresh", some 70⟩ rfl rfl,
    (only_one_side_records blN curN 10).2 "old" ⟨"old", some 50⟩ rfl rfl⟩

/-- C10: in every record produced by the comparator, the baseline reference
is absent exactly for status `new`, the current reference is absent exactly
for status `removed`, both references are exactly the documents' lookups of
the record's name, and for the three both-present statuses both references
are present. -/
theorem record_reference_invariant (bl cur : RunDoc) (t : ℚ) (rec : Comparison)
    (hrec : rec ∈ compare_benchmarks bl cur t) :
    (rec.baseline = none ↔ rec.status = .new) ∧
    (rec.current = none ↔ rec.status = .removed) ∧
    rec.baseline = benchLookup bl.benchmarks rec.name ∧
    rec.current = benchLookup cur.benchmarks rec.name ∧
    ((rec.status = .regression ∨ rec.status = .improvement ∨
        rec.status = .unchanged) →
      ∃ b c, benchLookup bl.benchmarks rec.name = some b ∧
        rec.baseline = some b ∧
        benchLookup cur.benchmarks rec.name = some c ∧
        rec.current = some c) := by
  obtain ⟨n, hn, heq⟩ := mem_compare_benchmarks.1 hrec
  subst heq
  rw [compareOne_name]
  rcases hbl : benchLookup bl.benchmarks n with _ | b
  · have hcur : ∃ c, benchLookup cur.benchmarks n = some c := by
      rcases mem_allNames.1 hn with h | h
      · obtain ⟨b, hb⟩ := benchLookup_isSome_of_mem h
        rw [hbl] at hb
        exact Option.noConfusion hb
      · exact benchLookup_isSome_of_mem h
    obtain ⟨c, hc⟩ := hcur
    rw [hc]
    exact ⟨⟨fun _ => rfl, fun _ => rfl⟩,
      ⟨fun h => Option.noConfusion h, fun h => Status.noConfusion h⟩,
      rfl, rfl,
      fun h => by rcases h with h | h | h <;> exact Status.noConfusion h⟩
  · rcases hcu : benchLookup cur.benchmarks n with _ | c
    ·
      exact ⟨⟨fun h => Option.noConfusion h, fun h => Status.noConfusion h⟩,
        ⟨fun _ => rfl, fun _ => rfl⟩,
        rfl, rfl,
        fun h => by rcases h with h | h | h <;> exact Status.noConfusion h⟩
    ·
      have hsn : (if calculate_change (meanOf b) (meanOf c) > t
          then Status.regression
          else if calculate_change (meanOf b) (meanOf c) < -t
            then Status.improvement else Status.unchanged) ≠ Status.new := by
        split_ifs <;> intro h <;> exact Status.noConfusion h
      have hsr : (if calculate_change (meanOf b) (meanOf c) > t
          then Status.regression
          else if calculate_change (meanOf b) (meanOf c) < -t
            then Status.improvement else Status.unchanged) ≠ Status.removed := by
        split_ifs <;> intro h <;> exact Status.noConfusion h
      exact ⟨⟨fun h => Option.noConfusion h, fun h => absurd h hsn⟩,
        ⟨fun h => Option.noConfusion h, fun h => absurd h hsr⟩,
        rfl, rfl,
        fun _ => ⟨b, c, rfl, rfl, rfl, rfl⟩⟩

/-- Baseline document of the C10 witness. -/
def blI : RunDoc := ⟨none, none, [⟨"i", some 10⟩]⟩

/-- Current document of the C10 witness. -/
def curI : RunDoc := ⟨none, none, [⟨"i", some 12⟩]⟩

/-- The single record the comparator produces for the C10 witness pair. -/
def recI : Comparison :=
  compareOne 10 "i" (some ⟨"i", some 10⟩) (some ⟨"i", some 12⟩)

/-- C10 witness: the invariant applied to the single record of a concrete
run pair. -/
theorem record_reference_invariant_witness :
    (recI.baseline = none ↔ recI.status = .new) ∧
    (recI.current = none ↔ recI.status = .removed) ∧
    recI.baseline = benchLookup blI.benchmarks recI.name ∧
    recI.current = benchLookup curI.benchmarks recI.name ∧
    ((recI.status = .regression ∨ recI.status = .improvement ∨
        recI.status = .unchanged) →
      ∃ b c, benchLookup blI.benchmarks recI.name = some b ∧
        recI.baseline = some b ∧
        benchLookup curI.benchmarks recI.name = some c ∧
        recI.current = some c) :=
  record_reference_invariant blI curI 10 recI (List.mem_singleton_self recI)

/-- C5: after the report is written the process exits 0 regardless of how
many regressions were found, except when the fail-on-regression flag is set
and at least one record is a regression, in which case the exit code is
non-zero (1) and one console line per regression, naming it and its
percentage, is printed. -/
theorem exit_code_spec (cs : List Comparison) (flag : Bool) :
    ((mainEpilogue cs flag).1 = 0 ↔
      ¬(flag = true ∧ ∃ rec ∈ cs, rec.status = .regression)) ∧
    (flag = true → (∃ rec ∈ cs, rec.status = .regression) →
      (mainEpilogue cs flag).1 = 1 ∧
      (mainEpilogue cs flag).2 = (regressionsOf cs).map regressionLine ∧
      ∀ rec ∈ cs, rec.status = .regression →
        regressionLine rec ∈ (mainEpilogue cs flag).2) := by
  have hmem : ∀ rec, rec ∈ regressionsOf cs ↔
      rec ∈ cs ∧ rec.status = .regression := by
    intro rec
    unfold regressionsOf
    rw [List.mem_filter]
    simp only [decide_eq_true_eq]
  by_cases hflag : flag = true
  · subst hflag
    by_cases hreg : ∃ rec ∈ cs, rec.status = .regression
    · have hne : (regressionsOf cs).isEmpty = false := by
        obtain ⟨rec, hrec, hst⟩ := hreg
        have : rec ∈ regressionsOf cs := (hmem rec).2 ⟨hrec, hst⟩
        cases he : regressionsOf cs with
        | nil => rw [he] at this; exact absurd this (List.not_mem_nil rec)
        | cons a l => rfl
      have hepi : mainEpilogue cs true =
          (1, (regressionsOf cs).map regressionLine) := by
        unfold mainEpilogue
        rw [hne]
        rfl
      rw [hepi]
      refine ⟨?_, fun _ _ => ⟨rfl, rfl, ?_⟩⟩
      · constructor
        · intro h
          exact absurd h one_ne_zero
        · intro h
          exact absurd ⟨rfl, hreg⟩ h
      · intro rec hrec hst
        exact List.mem_map_of_mem _ ((hmem rec).2 ⟨hrec, hst⟩)
    · have he : regressionsOf cs = [] := by
        cases he : regressionsOf cs with
        | nil => rfl
        | cons a l =>
            have : a ∈ regressionsOf cs := by rw [he]; exact List.mem_cons_self a l
            obtain ⟨h1, h2⟩ := (hmem a).1 this
            exact absurd ⟨a, h1, h2⟩ hreg
      have hepi : mainEpilogue cs true = (0, []) := by
        unfold mainEpilogue
        rw [he]
        rfl
      rw [hepi]
      exact ⟨⟨fun _ hc => hreg hc.2, fun _ => rfl⟩,
        fun _ hc => absurd hc hreg⟩
  · have hflag' : flag = false := Bool.eq_false_iff.2 hflag
    subst hflag'
    have hepi : mainEpilogue cs false = (0, []) := by
      unfold mainEpilogue
      rw [Bool.and_false]
      rfl
    rw [hepi]
    exact ⟨⟨fun _ hc => Bool.noConfusion hc.1, fun _ => rfl⟩,
      fun hc => Bool.noConfusion hc⟩

/-- A regression record used by the C5 witness. -/
def recR : Comparison :=
  ⟨"r", .regression, some ⟨"r", some 100⟩, some ⟨"r", some 115⟩, 15⟩

/-- C5 witness: the claim theorem applied to a one-regression record list
with the fail flag set. -/
theorem exit_code_spec_witness :
    (mainEpilogue [recR] true).1 = 1 ∧
    (mainEpilogue [recR] true).2 = (regressionsOf [recR]).map regressionLine ∧
    ∀ rec ∈ [recR], rec.status = .regression →
      regressionLine rec ∈ (mainEpilogue [recR] true).2 :=
  (exit_code_spec [recR] true).2 rfl ⟨recR, List.mem_singleton_self recR, rfl⟩

/-- C8 (code bug): the spec and the claim say the microsecond tier uses the
suffix "µs", but the source literal on line 34 is the double-encoded
mojibake "Âµs" (U+00C2 U+00B5 's'), clearly an encoding slip: the program
renders 1500 ns as "1.50Âµs", not "1.50µs" as the claim states.  The other
three tiers are ASCII and render exactly as the claim says (999 as "999ns",
2500000 as "2.50ms", 3000000000 as "3.00s"). -/
theorem duration_formatting_bug :
    format_duration 1500 = "1.50Âµs" ∧
    ("1.50Âµs" : String) ≠ "1.50µs" ∧
    format_duration 999 = "999ns" ∧
    format_duration 2500000 = "2.50ms" ∧
    format_duration 3000000000 = "3.00s" := by
  refine ⟨?_, by decide, ?_, ?_, ?_⟩
  all_goals
    norm_num [format_duration, formatFixed, roundHalfEven, padZeros,
      Int.fract, abs_of_nonneg]
  all_goals decide

/-- Baseline document of the C9 witness. -/
def blD : RunDoc := ⟨some "v", some "ts", [⟨"x", some 42⟩]⟩

/-- Current document of the C9 witness. -/
def curD : RunDoc := ⟨some "w", some "tt", [⟨"x", some 40⟩]⟩

/-- C9: the end-to-end transform (compare then render) is a pure function of
the two documents and the threshold: two runs on equal inputs produce the
same report text (the tool generates no timestamps or other varying data;
the embedding of the source contains no such source of variation). -/
theorem deterministic_report (bl₁ bl₂ cur₁ cur₂ : RunDoc) (t₁ t₂ : ℚ)
    (hb : bl₁ = bl₂) (hc : cur₁ = cur₂) (ht : t₁ = t₂) :
    runReport bl₁ cur₁ t₁ = runReport bl₂ cur₂ t₂ := by
  rw [hb, hc, ht]

/-- C9 witness: determinism at a concrete input pair. -/
theorem deterministic_report_witness :
    runReport blD curD 10 = runReport blD curD 10 :=
  deterministic_report blD blD curD curD 10 10 rfl rfl rfl

/-- C6 (amended): the loader fails with an IO-kind error when the file is
missing or unreadable and with a parse-kind error when the content is not
well-formed JSON; a run document with no `benchmarks` key is tolerated (the
lookup dict is empty, so the comparison proceeds as with an empty
collection), but a wrongly-typed `benchmarks` value is NOT tolerated in
general: a non-iterable value such as a number raises `TypeError`. -/
theorem loader_and_benchmarks_tolerance (fields : List (String × Json))
    (hmiss : lookupField fields "benchmarks" = none) :
    load_results none = .error .ioError ∧
    load_results (some none) = .error .parseError ∧
    (∀ j : Json, load_results (some (some j)) = .ok j) ∧
    buildBenchDict (.obj fields) = .ok [] ∧
    ∀ q : ℚ, buildBenchDict (.obj [("benchmarks", .num q)]) =
      .error .typeError := by
  refine ⟨rfl, rfl, fun j => rfl, ?_, fun q => rfl⟩
  show (match pyIter ((lookupField fields "benchmarks").getD (.arr [])) with
    | .error e => Except.error e
    | .ok elems => elems.foldlM (fun acc b =>
        match pyIndexName b with
        | .error e => .error e
        | .ok nm =>
            if isHashable nm then .ok (acc ++ [(nm, b)])
            else .error .typeError) []) = .ok []
  rw [hmiss]
  rfl

/-- C6 counterexample: a document whose `benchmarks` field is the number 42
does not yield an empty benchmark collection — building the lookup dict
raises `TypeError` (iterating an `int`), so the claim's "wrongly typed is
tolerated" part is false on the code. -/
theorem loader_tolerance_counterexample :
    buildBenchDict (.obj [("benchmarks", Json.num 42)]) = .error .typeError ∧
    Except.error PyError.typeError ≠
      (Except.ok [] : Except PyError (List (Json × Json))) :=
  ⟨rfl, fun h => Except.noConfusion h⟩

/-- C6 witness: the amended loader contract applied to a document without a
`benchmarks` key. -/
theorem loader_and_benchmarks_tolerance_witness :
    load_results none = .error .ioError ∧
    load_results (some none) = .error .parseError ∧
    (∀ j : Json, load_results (some (some j)) = .ok j) ∧
    buildBenchDict (.obj [("version", Json.str "1")]) = .ok [] ∧
    ∀ q : ℚ, buildBenchDict (.obj [("benchmarks", .num q)]) =
      .error .typeError :=
  loader_and_benchmarks_tolerance [("version", Json.str "1")] rfl

/-- C7 (amended): the report consists of a summary block — a regressions
count line exactly when the regression count is positive, an improvements
count line exactly when positive, an unchanged count line always, a new
count line exactly when positive, and never a removed count line — followed
by a detail table with one row per record in the comparator's order, and the
metadata footer. -/
theorem report_structure (cs : List Comparison) (bi ci : RunDoc) :
    generateLines cs bi ci =
      ["### Summary", ""]
        ++ (if (cs.filter (fun c => decide (c.status = .regression))).length = 0
            then []
            else [regrCountLine
              (cs.filter (fun c => decide (c.status = .regression))).length])
        ++ (if (cs.filter (fun c => decide (c.status = .improvement))).length = 0
            then []
            else [imprCountLine
              (cs.filter (fun c => decide (c.status = .improvement))).length])
        ++ [unchCountLine
            (cs.filter (fun c => decide (c.status = .unchanged))).length]
        ++ (if (cs.filter (fun c => decide (c.status = .new))).length = 0
            then []
            else [newCountLine
              (cs.filter (fun c => decide (c.status = .new))).length])
        ++ [""]
        ++ ["### Details", "", tableHeaderLine, tableSepLine]
        ++ cs.map rowLine
        ++ [""]
        ++ ["<details>", "<summary>Run Information</summary>", "",
            metaLine "Baseline" bi, metaLine "Current" ci, "", "</details>"] := by
  simp only [generateLines, List.isEmpty_iff_length_eq_zero]

/-- Baseline document of the C7 counterexample. -/
def blU : RunDoc := ⟨some "1.0", some "t0", [⟨"u", some 100⟩]⟩

/-- Current document of the C7 counterexample. -/
def curU : RunDoc := ⟨some "1.0", some "t0", [⟨"u", some 100⟩]⟩

/-- C7 counterexample: for the comparator output of a pair with one
unchanged benchmark the rendered summary block contains only the unchanged
count line — there is no regressions, improvements or new count line, so
the claim that the summary always contains those count lines is false on
the code (they are emitted only when their counts are positive). -/
theorem report_structure_counterexample :
    generateLines (compare_benchmarks blU curU 10) blU curU =
      ["### Summary", "", "âšª 1 unchanged", "", "### Details", "",
       "| Benchmark | Baseline | Current | Change |",
       "|-----------|----------|---------|--------|",
       "| u | 100ns | 100ns | +0.0%  |", "", "<details>",
       "<summary>Run Information</summary>", "", "- Baseline: 1.0 @ t0",
       "- Current: 1.0 @ t0", "", "</details>"] ∧
    unchCountLine 1 ∈ generateLines (compare_benchmarks blU curU 10) blU curU ∧
    regrCountLine 0 ∉ generateLines (compare_benchmarks blU curU 10) blU curU ∧
    imprCountLine 0 ∉ generateLines (compare_benchmarks blU curU 10) blU curU ∧
    newCountLine 0 ∉ generateLines (compare_benchmarks blU curU 10) blU curU := by
  have heq : generateLines (compare_benchmarks blU curU 10) blU curU =
      ["### Summary", "", "âšª 1 unchanged", "", "### Details", "",
       "| Benchmark | Baseline | Current | Change |",
       "|-----------|----------|---------|--------|",
       "| u | 100ns | 100ns | +0.0%  |", "", "<details>",
       "<summary>Run Information</summary>", "", "- Baseline: 1.0 @ t0",
       "- Current: 1.0 @ t0", "", "</details>"] := by
    norm_num [generateLines, compare_benchmarks, allNames, benchNames,
      benchLookup, compareOne, calculate_change, meanOf, blU, curU,
      List.insertionSort, List.orderedInsert, List.dedup, List.pwFilter,
      rowLine, optMean, format_duration, formatFixed, formatFixedSigned,
      roundHalfEven, padZeros, Int.fract, abs_of_nonneg, regrCountLine,
      imprCountLine, unchCountLine, newCountLine, tableHeaderLine,
      tableSepLine, metaLine]
    decide
  rw [heq]
  refine ⟨rfl, ?_, ?_, ?_, ?_⟩ <;> decide

end CompareBench
